import Mathlib

/-!
Shallow embedding of the securegrade submission-grading core.

Rust sources embedded here:
  - src/database.rs           (schema: table shapes)
  - src/database/auth.rs      (session_exists_and_valid)
  - src/database/user.rs      (create_hash)
  - src/database/assignment/operations.rs
        (submission_in_progress, remove_old_grade, mark_as_submitted,
         container_add_task_grade, get_task_score, get_assignment_scores)
  - src/database/operations.rs (container_add_grade - legacy table)
  - src/model/submission_response.rs (SubmissionResponse and its builders)
  - src/container.rs          (container_queue worker body, run_container,
                               get_container_for_language)
  - src/main.rs               (handle_basic_auth, handle_student_auth,
                               handle_submission)

Conventions: byte strings are lists of naturals; TIMESTAMPTZ values are
integers under the usual order; the f32 grade column is modelled by the
rationals; SHA-512 and base64 decoding are external library calls and are
modelled by an explicit function parameter (for SHA-512) and by passing the
already decoded bytes (for base64, whose failure aborts the request in the
source). Database rows carry the columns that the embedded operations read
or write.
-/

set_option linter.unusedVariables false

abbrev Bytes := List Nat

/-- Row of the users table (src/database.rs). -/
structure UserRow where
  id : Int
  first_name : String
  last_name : String
  user_name : String
  email : String
  is_admin : Bool
deriving DecidableEq, Repr

/-- Row of the user_class enrollment table (src/database.rs). -/
structure UserClassRow where
  user_id : Int
  class_number : String
  is_instructor : Bool
deriving DecidableEq, Repr

/-- Row of the assignments table; only the columns read by the embedded
operations (id, deadline) are carried. -/
structure AssignmentRow where
  id : Int
  deadline : Int
deriving DecidableEq, Repr

/-- Row of the assignment_class association table (src/database.rs). -/
structure AssignmentClassRow where
  assignment_id : Int
  class_number : String
deriving DecidableEq, Repr

/-- Row of the tasks table; only id and assignment_id are read by the
embedded operations. -/
structure TaskRow where
  id : Int
  assignment_id : Int
deriving DecidableEq, Repr

/-- Row of the tests table (src/database.rs), matching the Test struct of
src/database/assignment.rs that the grading loop consumes. -/
structure TestRow where
  id : Int
  task_id : Int
  test_name : Option String
  input : String
  output : String
  public : Bool
  timeout : Option Int
deriving DecidableEq, Repr

/-- Row of the user_session table (src/database.rs). -/
structure SessionRow where
  session_hash : Bytes
  expiration : Int
  user_id : Int
deriving DecidableEq, Repr

/-- Row of the user_task_grade table (src/database.rs).  The was_late
column is written by every insert in the source, so it is carried as a
plain boolean. -/
structure UserTaskGradeRow where
  user_id : Int
  task_id : Int
  assignment_id : Int
  json_results : Option Bytes
  submission_zip : Option Bytes
  grade : Option Rat
  error : Option String
  was_late : Bool
deriving DecidableEq, Repr

/-- Row of the user_assignment_grade table that the legacy operations in
src/database/operations.rs write.  Note that src/database.rs never creates
this table; it is carried here so the legacy writes can be expressed. -/
structure UserAssignmentGradeRow where
  user_id : Int
  assignment_id : Int
  json_results : Option Bytes
  grade : Option Rat
deriving DecidableEq, Repr

/-- State of the relational store: one list of rows per table. -/
structure DBState where
  users : List UserRow := []
  user_class : List UserClassRow := []
  assignments : List AssignmentRow := []
  assignment_class : List AssignmentClassRow := []
  tasks : List TaskRow := []
  tests : List TestRow := []
  user_task_grade : List UserTaskGradeRow := []
  user_assignment_grade : List UserAssignmentGradeRow := []
  user_session : List SessionRow := []
deriving DecidableEq, Repr

/-- Embeds session_exists_and_valid (src/database/auth.rs, lines 23-60).
The caller base64-decodes the presented token and applies SHA-512; here
the decoded bytes and the hash function are passed in.  The source fetches
the row whose session_hash equals the hash, answers false when no row
exists or when now is strictly after the expiration, and true otherwise. -/
def session_exists_and_valid (hash : Bytes → Bytes) (table : List SessionRow)
    (now : Int) (token_bytes : Bytes) : Bool :=
  match table.find? (fun r => r.session_hash == hash token_bytes) with
  | none => false
  | some r => if now > r.expiration then false else true

/-- Embeds create_hash (src/database/user.rs, lines 9-19): the username
bytes are split at floor(n/2); the digest input is first half, password,
second half, concatenated in that order. -/
def create_hash (hash : Bytes → Bytes) (user_name pass : Bytes) : Bytes :=
  let name_len := user_name.length
  let first_half_user_name := user_name.take (name_len / 2)
  let last_half_user_name := user_name.drop (name_len / 2)
  hash (List.flatten [first_half_user_name, pass, last_half_user_name])

/-- Statement of the credential-hash law in the words of the spec:
hash = SHA-512(user_name[:n/2] concat password concat user_name[n/2:]). -/
def create_hash_spec (hash : Bytes → Bytes) (user_name pass : Bytes) : Bytes :=
  hash (user_name.take (user_name.length / 2) ++ pass
        ++ user_name.drop (user_name.length / 2))

/-- Outcome of a database-backed role check as the middleware sees it:
either a boolean answer or a database error. -/
abbrev CheckResult := Except String Bool

/-- Embeds handle_basic_auth (src/main.rs, lines 129-195) at the level of
the produced status code.  The inner handler status stands for next.run;
the role-annotation response headers added on success do not change the
status and are elided. -/
def handle_basic_auth (auth_header : Option String) (validity : CheckResult)
    (inner_status : Nat) : Nat :=
  match auth_header with
  | none => 403
  | some _ =>
    match validity with
    | .ok true => inner_status
    | .ok false => 403
    | .error _ => 500

/-- Embeds handle_student_auth (src/main.rs, lines 197-271) at the level of
the produced status code.  With a class path parameter the student check
runs first and the instructor check runs only when the student check
answers false; without a class parameter the admin check decides. -/
def handle_student_auth (auth_header : Option String)
    (class_param : Option String)
    (student_check instructor_check admin_check : CheckResult)
    (inner_status : Nat) : Nat :=
  match auth_header with
  | none => 403
  | some _ =>
    match class_param with
    | some _ =>
      match student_check with
      | .error _ => 500
      | .ok s =>
        if s then inner_status
        else
          match instructor_check with
          | .error _ => 500
          | .ok i => if i then inner_status else 403
    | none =>
      match admin_check with
      | .error _ => 500
      | .ok a => if a then inner_status else 403

/-- Embeds submission_in_progress (src/database/assignment/operations.rs,
lines 550-566): true exactly when a user_task_grade row with the given
user_id and task_id and a NULL grade exists. -/
def submission_in_progress (s : DBState) (user_id task_id : Int) : Bool :=
  (s.user_task_grade.find? (fun r =>
    r.user_id == user_id && r.task_id == task_id && r.grade.isNone)).isSome

/-- Embeds remove_old_grade (src/database/assignment/operations.rs, lines
568-582): deletes every user_task_grade row with the given keys. -/
def remove_old_grade (s : DBState) (user_id task_id : Int) : DBState :=
  { s with user_task_grade := s.user_task_grade.filter (fun r =>
      !(r.user_id == user_id && r.task_id == task_id)) }

/-- Embeds mark_as_submitted (src/database/assignment/operations.rs, lines
205-249): reads the deadline of the assignment (error when the row is
missing), computes was_late as submission_time at or after the deadline,
inserts a user_task_grade row whose result columns are NULL, and returns
the late flag. -/
def mark_as_submitted (s : DBState) (user_id assignment_id task_id : Int)
    (submission_time : Int) (zip_file : Bytes) :
    Except String (Bool × DBState) :=
  match s.assignments.find? (fun a => a.id == assignment_id) with
  | none => .error "no rows returned by a query that expected to return at least one row"
  | some a =>
    let was_late := decide (submission_time ≥ a.deadline)
    .ok (was_late,
      { s with user_task_grade := s.user_task_grade ++
          [{ user_id := user_id, task_id := task_id,
             assignment_id := assignment_id, json_results := none,
             submission_zip := some zip_file, grade := none, error := none,
             was_late := was_late }] })

/-- Embeds container_add_task_grade (src/database/assignment/operations.rs,
lines 251-282): UPDATE user_task_grade SET json_results, grade WHERE
user_id AND task_id match. -/
def container_add_task_grade (s : DBState) (user_id task_id : Int)
    (results : Bytes) (grade : Rat) : DBState :=
  { s with user_task_grade := s.user_task_grade.map (fun r =>
      if r.user_id == user_id && r.task_id == task_id then
        { r with json_results := some results, grade := some grade }
      else r) }

/-- Embeds container_add_grade (src/database/operations.rs, lines 391-417):
INSERT INTO user_assignment_grade ... ON CONFLICT (user_id, assignment_id)
DO UPDATE SET json_results, grade.  This is the write the spawned grading
worker performs; it touches the legacy user_assignment_grade table, not
user_task_grade. -/
def container_add_grade (s : DBState) (user_id assignment_id : Int)
    (results : Bytes) (grade : Rat) : DBState :=
  if (s.user_assignment_grade.find? (fun r =>
      r.user_id == user_id && r.assignment_id == assignment_id)).isSome then
    { s with user_assignment_grade := s.user_assignment_grade.map (fun r =>
        if r.user_id == user_id && r.assignment_id == assignment_id then
          { r with json_results := some results, grade := some grade }
        else r) }
  else
    { s with user_assignment_grade := s.user_assignment_grade ++
        [{ user_id := user_id, assignment_id := assignment_id,
           json_results := some results, grade := some grade }] }

/-- Embeds the query of get_task_score (src/database/assignment/operations.rs,
lines 284-310): SELECT json_results FROM user_task_grade for the keys.
Outer none means no row (the source answers Ok(None)); the inner option is
the raw json_results column, which the source then JSON-decodes. -/
def get_task_score (s : DBState) (user_id task_id : Int) :
    Option (Option Bytes) :=
  (s.user_task_grade.find? (fun r =>
    r.user_id == user_id && r.task_id == task_id)).map (fun r => r.json_results)

/-- Per-test record of the persisted results (struct Test in
src/model/submission_response.rs). -/
structure TestReport where
  test_name : String
  status : String
  input_output : Option (String × String × String)
deriving DecidableEq, Repr

/-- Persisted grading results (struct SubmissionResponse in
src/model/submission_response.rs).  The input_output component of a report
is the (input, expected, found) triple. -/
structure SubmissionResponse where
  tests : List TestReport := []
  passes : Nat := 0
deriving DecidableEq, Repr

/-- Builder pass (src/model/submission_response.rs, lines 24-31): appends a
record with no input_output and counts the pass; a late pass is tagged
LATE instead of PASS. -/
def SubmissionResponse.pass (r : SubmissionResponse)
    (test_name : Option String) (was_late : Bool) : SubmissionResponse :=
  { tests := r.tests ++
      [{ test_name := test_name.getD "",
         status := if was_late then "LATE" else "PASS", input_output := none }],
    passes := r.passes + 1 }

/-- Builder pub_pass (lines 33-51): like pass but with the
(input, expected, found) triple attached. -/
def SubmissionResponse.pub_pass (r : SubmissionResponse)
    (test_name : Option String) (was_late : Bool)
    (input expected found : String) : SubmissionResponse :=
  { tests := r.tests ++
      [{ test_name := test_name.getD "",
         status := if was_late then "LATE" else "PASS",
         input_output := some (input, expected, found) }],
    passes := r.passes + 1 }

/-- Builder fail (lines 53-60). -/
def SubmissionResponse.fail (r : SubmissionResponse)
    (test_name : Option String) : SubmissionResponse :=
  { r with tests := r.tests ++
      [{ test_name := test_name.getD "", status := "FAIL",
         input_output := none }] }

/-- Builder pub_fail (lines 62-78). -/
def SubmissionResponse.pub_fail (r : SubmissionResponse)
    (test_name : Option String) (input expected found : String) :
    SubmissionResponse :=
  { r with tests := r.tests ++
      [{ test_name := test_name.getD "", status := "FAIL",
         input_output := some (input, expected, found) }] }

/-- Builder time_out (lines 80-87). -/
def SubmissionResponse.time_out (r : SubmissionResponse)
    (test_name : Option String) : SubmissionResponse :=
  { r with tests := r.tests ++
      [{ test_name := test_name.getD "", status := "TIMED OUT",
         input_output := none }] }

/-- Builder pub_time_out (lines 89-104): the found component is empty
because the run produced no output in time. -/
def SubmissionResponse.pub_time_out (r : SubmissionResponse)
    (test_name : Option String) (input expected : String) :
    SubmissionResponse :=
  { r with tests := r.tests ++
      [{ test_name := test_name.getD "", status := "TIMED OUT",
         input_output := some (input, expected, "") }] }

/-- Builder err (lines 106-112). -/
def SubmissionResponse.err (r : SubmissionResponse)
    (test_name : Option String) : SubmissionResponse :=
  { r with tests := r.tests ++
      [{ test_name := test_name.getD "", status := "ERR",
         input_output := none }] }

/-- Builder pub_err (lines 114-130): the found component carries the
stderr text. -/
def SubmissionResponse.pub_err (r : SubmissionResponse)
    (test_name : Option String) (input expected found : String) :
    SubmissionResponse :=
  { r with tests := r.tests ++
      [{ test_name := test_name.getD "", status := "ERR",
         input_output := some (input, expected, found) }] }

/-- Aggregate score (src/model/submission_response.rs, lines 132-134):
passes over total tests.  The source divides f32 values (0/0 gives NaN
there); here the quotient is rational, with the Lean convention 0 on an
empty test list. -/
def SubmissionResponse.score (r : SubmissionResponse) : Rat :=
  (r.passes : Rat) / (r.tests.length : Rat)

/-- Result of one container execution (image.exec in the grading loop):
Ok(Some out), Ok(None) on timeout, or Err(stderr). -/
inductive ExecOutcome where
  | finished (out : String)
  | timedOut
  | crashed (msg : String)
deriving DecidableEq, Repr

/-- Embeds one iteration of the per-test loop of run_container
(src/container.rs, lines 147-217): dispatch on the execution outcome, then
on the comparison of trimmed outputs; public tests use the pub_ builders
that attach the I/O triple, private tests use the builders that omit it. -/
def process_test (was_late : Bool) (exec : TestRow → ExecOutcome)
    (acc : SubmissionResponse) (t : TestRow) : SubmissionResponse :=
  match exec t with
  | .timedOut =>
    if t.public then acc.pub_time_out t.test_name t.input t.output
    else acc.time_out t.test_name
  | .crashed e =>
    if t.public then acc.pub_err t.test_name t.input t.output e
    else acc.err t.test_name
  | .finished out =>
    if out.trim == t.output.trim then
      if t.public then
        acc.pub_pass t.test_name was_late t.input.trim t.output.trim out.trim
      else acc.pass t.test_name was_late
    else
      if t.public then
        acc.pub_fail t.test_name t.input.trim t.output.trim out.trim
      else acc.fail t.test_name

/-- Embeds the whole test loop of run_container: fold process_test over the
tests of the task, starting from the default response. -/
def run_tests (was_late : Bool) (exec : TestRow → ExecOutcome)
    (tests : List TestRow) : SubmissionResponse :=
  tests.foldl (process_test was_late exec) {}

/-- Embeds get_container_for_language (src/container.rs, lines 223-232):
scan the dockerfiles directory entries for one named like the language. -/
def get_container_for_language (dockerfiles : List String) (lang : String) :
    Option String :=
  dockerfiles.find? (fun d => d == lang)

/-- Embeds run_container (src/container.rs, lines 98-221) over the pure
data it consumes: when no sandbox recipe directory matches the language the
run fails with the grading error Language not supported; otherwise the
test loop produces the response.  Workspace setup, the unzip and image
build subprocesses and the teardown are filesystem effects outside the
embedding (their failures abort the worker task in the source). -/
def run_container (dockerfiles : List String) (lang : String)
    (was_late : Bool) (exec : TestRow → ExecOutcome) (tests : List TestRow) :
    Except String SubmissionResponse :=
  match get_container_for_language dockerfiles lang with
  | none => .error "Language not supported"
  | some _ => .ok (run_tests was_late exec tests)

/-- Queue entry as defined in src/container.rs, lines 25-46: the worker
destructures exactly these four fields. -/
structure ContainerEntry where
  zip_file : Bytes
  user_id : Int
  assignment_id : Int
  lang : String
deriving DecidableEq, Repr

/-- Data that handle_submission (src/main.rs, line 442) passes to the queue
constructor: ContainerEntry::new(zip_file, user_id, task_id, was_late,
"python").  The call site carries five arguments while the constructor in
src/container.rs takes four; the two files are from different stages of a
refactor, so the argument list is recorded verbatim here. -/
structure SubmitQueueItem where
  zip_file : Bytes
  user_id : Int
  task_id : Int
  was_late : Bool
  lang : String
deriving DecidableEq, Repr

/-- Embeds the body of the worker spawned by container_queue
(src/container.rs, lines 68-91) for one dequeued entry, given the outcome
of run_container.  On an execution error the permit is dropped, the error
is logged and the worker returns without touching the store (the source
holds only a comment where a database write would go).  On success the
permit is dropped, the results are serialized and container_add_grade
upserts them into user_assignment_grade under (user_id, assignment_id).
The returned boolean records that the permit was released. -/
def container_queue_step (ser : SubmissionResponse → Bytes) (s : DBState)
    (e : ContainerEntry) (run_result : Except String SubmissionResponse) :
    DBState × Bool :=
  match run_result with
  | .error _ => (s, true)
  | .ok results =>
    (container_add_grade s e.user_id e.assignment_id (ser results)
      results.score, true)

/-- Embeds handle_submission (src/main.rs, lines 382-460).  Inputs: auth is
the user id resolved from the Authorization header (none models a missing
header, answered 403); the Language header value is carried to show the
handler never reads it; now is the submission time captured at the top of
the handler; queue_ok tells whether reserving a slot on the scheduler
channel succeeded.  The in-progress check passes assignment_id as the
second argument of submission_in_progress, exactly as the call at
src/main.rs line 408 does.  The result is the status code, the new store
state, and the enqueued item if any. -/
def handle_submission (s : DBState) (auth : Option Int)
    (assignment_id task_id : Int) (language_header : Option String)
    (now : Int) (zip_file : Bytes) (queue_ok : Bool) :
    Nat × DBState × Option SubmitQueueItem :=
  match auth with
  | none => (403, s, none)
  | some user_id =>
    if submission_in_progress s user_id assignment_id then (425, s, none)
    else
      let s1 := remove_old_grade s user_id task_id
      match mark_as_submitted s1 user_id assignment_id task_id now zip_file with
      | .error _ => (500, s1, none)
      | .ok (was_late, s2) =>
        if queue_ok then
          (200, s2, some { zip_file := zip_file, user_id := user_id,
                           task_id := task_id, was_late := was_late,
                           lang := "python" })
        else (500, s2, none)

/-- One entry of the instructor score listing (struct AssignmentGrade in
src/model/assignment_grade.rs). -/
structure AssignmentGrade where
  name : String
  username : String
  score : Rat
deriving DecidableEq, Repr

/-- Embeds the first query of get_assignment_scores
(src/database/assignment/operations.rs, lines 399-413):
SELECT id, first_name, last_name, user_name FROM users JOIN user_class c ON
c.user_id = id JOIN assignment_class ON assignment_class.assignment_id = $1
WHERE c.is_instructor = FALSE.  Nested-loop join semantics: one output row
per matching (user, enrollment, assignment_class) triple; there is no
DISTINCT and the join does not relate the two class_number columns. -/
def assignment_scores_rows (s : DBState) (assignment_id : Int) :
    List UserRow :=
  s.users.flatMap (fun u =>
    (s.user_class.filter (fun c => c.user_id == u.id)).flatMap (fun c =>
      (s.assignment_class.filter (fun ac =>
          ac.assignment_id == assignment_id)).filterMap (fun _ =>
        if c.is_instructor then none else some u)))

/-- Embeds the per-assignment task/test-count query (operations.rs, lines
425-437): tests joined to their task when that task belongs to the
assignment, grouped by task_id with COUNT(tests.id). -/
def grouped_task_counts (s : DBState) (assignment_id : Int) :
    List (Int × Nat) :=
  let relevant := s.tests.filter (fun te =>
    (s.tasks.find? (fun tk =>
      tk.id == te.task_id && tk.assignment_id == assignment_id)).isSome)
  ((relevant.map (fun te => te.task_id)).dedup).map (fun tid =>
    (tid, (relevant.filter (fun te => te.task_id == tid)).length))

/-- Embeds the per-task grade lookup (operations.rs, lines 446-463): the
user_task_grade row for (user, task) yields its grade and late flag, and a
missing row yields (0, false).  A NULL grade aborts the request in the
source; it reads as 0 here. -/
def task_grade_lookup (s : DBState) (user_id task_id : Int) : Rat × Bool :=
  match s.user_task_grade.find? (fun r =>
      r.user_id == user_id && r.task_id == task_id) with
  | some r => (r.grade.getD 0, r.was_late)
  | none => (0, false)

/-- Embeds the accumulation loop of get_assignment_scores (operations.rs,
lines 439-473): sum the test counts, sum grade times the 0.5 late
multiplier times the test count, and divide.  The source divides f32
values (0/0 gives NaN there); the quotient here is rational. -/
def user_assignment_score (s : DBState) (assignment_id : Int) (u : UserRow) :
    AssignmentGrade :=
  let tcs := grouped_task_counts s assignment_id
  let sum_tests : Nat := tcs.foldl (fun acc p => acc + p.2) 0
  let sum_grade : Rat := tcs.foldl (fun acc p =>
    let gw := task_grade_lookup s u.id p.1
    acc + (gw.1 * (if gw.2 then (1 : Rat) / 2 else 1)) * (p.2 : Rat)) 0
  { name := u.first_name ++ " " ++ u.last_name, username := u.user_name,
    score := sum_grade / (sum_tests : Rat) }

/-- Embeds get_assignment_scores (src/database/assignment/operations.rs,
lines 397-483): one AssignmentGrade per row of the join, in join order. -/
def get_assignment_scores (s : DBState) (assignment_id : Int) :
    List AssignmentGrade :=
  (assignment_scores_rows s assignment_id).map
    (user_assignment_score s assignment_id)

/-- Modelled from the spec wording for comparison: the user ids of the
distinct enrolled non-instructor students of the classes that share the
assignment, deduplicated by user id. -/
def distinct_enrolled_students (s : DBState) (assignment_id : Int) :
    List Int :=
  ((s.user_class.filter (fun c =>
      !c.is_instructor && s.assignment_class.any (fun ac =>
        ac.assignment_id == assignment_id &&
        ac.class_number == c.class_number))).map (fun c => c.user_id)).dedup

/-- Store with one completed-later grading job for user 1 on task 2 of
assignment 10: the row inserted at submission is present with NULL result
columns. -/
def c1_state : DBState :=
  { assignments := [⟨10, 100⟩],
    user_task_grade := [⟨1, 2, 10, none, some [9], none, none, false⟩] }

/-- Results of a successful executor run: one passing test. -/
def c1_results : SubmissionResponse := ⟨[⟨"t", "PASS", none⟩], 1⟩

/-- C1: the claim states that after a successful run the worker updates the
TaskGrade row keyed by (user_id, task_id) so that get_task_score returns
the results.  On the code this fails: the worker calls container_add_grade,
which upserts into the legacy user_assignment_grade table, so the
user_task_grade row keeps json_results NULL and get_task_score still
answers the NULL column.  Evaluated at a successful run for user 1,
task 2, serializer output [7]. -/
theorem c1_success_write_misses_task_grade_row :
    get_task_score (container_queue_step (fun _ => [7]) c1_state
      ⟨[9], 1, 2, "python"⟩ (.ok c1_results)).1 1 2 = some none ∧
    (container_queue_step (fun _ => [7]) c1_state ⟨[9], 1, 2, "python"⟩
      (.ok c1_results)).1.user_task_grade = c1_state.user_task_grade ∧
    (container_queue_step (fun _ => [7]) c1_state ⟨[9], 1, 2, "python"⟩
      (.ok c1_results)).1.user_assignment_grade.map
        (fun r => (r.user_id, r.assignment_id, r.json_results))
      = [(1, 2, some [7])] :=
  ⟨by decide, by decide, by decide⟩

/-- Store with an in-flight submission for user 1 on task 2 of assignment
10: the user_task_grade row exists with grade NULL. -/
def c2_state : DBState :=
  { assignments := [⟨10, 100⟩],
    user_task_grade := [⟨1, 2, 10, none, some [9], none, none, false⟩] }

/-- C2: the claim states that a submission for a (user, task) pair whose
TaskGrade row has grade NULL is answered 425 with the state unchanged.  On
the code this fails because handle_submission passes assignment_id, not
task_id, as the second argument of submission_in_progress: with user 1,
assignment 10, task 2 and an in-flight row for (1, 2), the check looks for
task 10, finds nothing, and the second submission is accepted with 200,
deleting and re-inserting the row. -/
theorem c2_in_progress_check_uses_assignment_id :
    submission_in_progress c2_state 1 2 = true ∧
    (handle_submission c2_state (some 1) 10 2 none 50 [8] true).1 = 200 ∧
    (handle_submission c2_state (some 1) 10 2 none 50 [8] true).2.1.user_task_grade
      = [{ user_id := 1, task_id := 2, assignment_id := 10,
           json_results := none, submission_zip := some [8], grade := none,
           error := none, was_late := false }] :=
  ⟨by decide, by decide, by decide⟩

/-- Store with assignment 10 and no prior submission. -/
def c3_state : DBState := { assignments := [⟨10, 100⟩] }

/-- C3 counterexample: the claim states that a submission without a
Language header is answered 400 with nothing persisted.  On the code the
handler never reads that header: with the header absent the request is
accepted with 200, a user_task_grade row is persisted, and the enqueued
item carries the hard-coded language python. -/
theorem c3_missing_language_header_not_rejected :
    (handle_submission c3_state (some 1) 10 2 none 50 [9] true).1 = 200 ∧
    (handle_submission c3_state (some 1) 10 2 none 50 [9] true).2.2
      = some { zip_file := [9], user_id := 1, task_id := 2,
               was_late := false, lang := "python" } ∧
    (handle_submission c3_state (some 1) 10 2 none 50 [9] true).2.1.user_task_grade
      ≠ [] :=
  ⟨by decide, by decide, by decide⟩

/-- C3 as amended: the handler ignores the Language header entirely (its
result does not depend on the header and no 400 is produced for its
absence); every enqueued item carries the hard-coded language python; and
the executor answers the grading error Language not supported, not an HTTP
status, when no sandbox recipe directory matches the language. -/
theorem c3_language_handling_amended (dockerfiles : List String)
    (lang : String) (h : dockerfiles.contains lang = false) :
    (∀ s auth aid tid hdr1 hdr2 now zip q,
      handle_submission s auth aid tid hdr1 now zip q
        = handle_submission s auth aid tid hdr2 now zip q) ∧
    (∀ s auth aid tid hdr now zip q,
      ((handle_submission s auth aid tid hdr now zip q).2.2).all
        (fun e => e.lang == "python") = true) ∧
    (∀ wl ex tests,
      run_container dockerfiles lang wl ex tests
        = .error "Language not supported") := by
  refine ⟨fun s auth aid tid hdr1 hdr2 now zip q => rfl, ?_, ?_⟩
  · intro s auth aid tid hdr now zip q
    unfold handle_submission
    cases auth with
    | none => rfl
    | some uid =>
      by_cases hp : submission_in_progress s uid aid
      · simp [hp]
      · simp only [hp]
        cases hms : mark_as_submitted (remove_old_grade s uid tid) uid aid tid now zip with
        | error e => simp [hms]
        | ok p => cases p with | mk wl s2 => cases q <;> simp [hms]
  · intro wl ex tests
    unfold run_container get_container_for_language
    have hnotmem : lang ∉ dockerfiles := by simpa using h
    have hfind : dockerfiles.find? (fun d => d == lang) = none := by
      rw [List.find?_eq_none]
      intro x hx
      simp only [beq_iff_eq]
      rintro rfl
      exact hnotmem hx
    rw [hfind]

/-- Witness for the amended C3 at a concrete recipe directory listing and
language. -/
theorem c3_language_handling_amended_witness :
    (["python"] : List String).contains "cobol" = false ∧
    run_container ["python"] "cobol" false (fun _ => ExecOutcome.timedOut) []
      = .error "Language not supported" :=
  ⟨rfl, (c3_language_handling_amended ["python"] "cobol" rfl).2.2 false
    (fun _ => ExecOutcome.timedOut) []⟩

/-- Store with the in-flight row for the job that is about to fail; its
error column is NULL. -/
def c4_state : DBState :=
  { assignments := [⟨10, 100⟩],
    user_task_grade := [⟨1, 2, 10, none, some [9], none, none, false⟩] }

/-- C4: the claim states that on a failed executor run the worker releases
its permit and also writes a terminal error into the TaskGrade row.  On
the code only the first half holds: with the run failing as Language not
supported for the job of user 1 on task 2, the worker releases the permit
and returns with the store untouched, so the error column of the row stays
NULL and the poll endpoint cannot tell a failed run from a running one. -/
theorem c4_failed_run_leaves_error_column_null :
    container_queue_step (fun _ => []) c4_state ⟨[9], 1, 2, "cobol"⟩
      (.error "Language not supported") = (c4_state, true) ∧
    run_container ["python"] "cobol" false (fun _ => ExecOutcome.crashed "x") []
      = .error "Language not supported" ∧
    c4_state.user_task_grade.all (fun r => r.error.isNone) = true :=
  ⟨rfl, rfl, rfl⟩

/-- Helper for C5: folding the per-test dispatch over any test list appends
one report per test, and the report carries an input_output triple exactly
when the test is public. -/
lemma run_tests_aux (wl : Bool) (ex : TestRow → ExecOutcome) :
    ∀ (ts : List TestRow) (acc : SubmissionResponse),
    (ts.foldl (process_test wl ex) acc).tests.map (fun rep => rep.input_output.isSome)
      = acc.tests.map (fun rep => rep.input_output.isSome) ++ ts.map (fun t => t.public) := by
  intro ts
  induction ts with
  | nil => intro acc; simp
  | cons t ts ih =>
    intro acc
    simp only [List.foldl_cons, List.map_cons]
    rw [ih]
    have h : (process_test wl ex acc t).tests.map (fun rep => rep.input_output.isSome)
        = acc.tests.map (fun rep => rep.input_output.isSome) ++ [t.public] := by
      unfold process_test
      cases hx : ex t <;> cases hp : t.public <;>
        simp [hp, SubmissionResponse.pub_time_out, SubmissionResponse.time_out,
              SubmissionResponse.pub_err, SubmissionResponse.err,
              SubmissionResponse.pub_pass, SubmissionResponse.pass,
              SubmissionResponse.pub_fail, SubmissionResponse.fail] <;>
        split <;>
        simp [SubmissionResponse.pub_pass, SubmissionResponse.pass,
              SubmissionResponse.pub_fail, SubmissionResponse.fail]
    rw [h]
    simp

/-- C5: for every test list, execution oracle and late flag, the grading
loop produces one report per test in order, and the report holds an
(input, expected, found) triple exactly when the test is public; in
particular every report of a non-public test omits the triple, whatever
the outcome. -/
theorem c5_private_tests_never_carry_io (wl : Bool)
    (ex : TestRow → ExecOutcome) (tests : List TestRow) :
    (run_tests wl ex tests).tests.map (fun rep => rep.input_output.isSome)
      = tests.map (fun t => t.public) := by
  unfold run_tests
  rw [run_tests_aux]
  simp

/-- Store for C6: one student (user 1) enrolled as non-instructor in the
two classes c1 and c2, with assignment 7 shared across both classes; the
assignment has one task with one test, fully graded. -/
def c6_state : DBState :=
  { users := [⟨1, "A", "B", "ab", "a@b", false⟩],
    user_class := [⟨1, "c1", false⟩, ⟨1, "c2", false⟩],
    assignments := [⟨7, 100⟩],
    assignment_class := [⟨7, "c1"⟩, ⟨7, "c2"⟩],
    tasks := [⟨30, 7⟩],
    tests := [⟨40, 30, none, "i", "o", false, none⟩],
    user_task_grade := [⟨1, 30, 7, some [1], some [9], some 1, none, false⟩] }

/-- C6: the claim states that get_assignment_scores returns exactly one
entry per distinct enrolled non-instructor student.  On the code the join
has no DISTINCT and does not relate the enrollment class to the class
sharing the assignment, so the single enrolled student of c6_state appears
four times (two enrollments times two assignment-class rows) although the
distinct student list has length one. -/
theorem c6_assignment_scores_duplicate_students :
    (get_assignment_scores c6_state 7).length = 4 ∧
    (get_assignment_scores c6_state 7).map (fun g => g.username)
      = ["ab", "ab", "ab", "ab"] ∧
    distinct_enrolled_students c6_state 7 = [1] :=
  ⟨by decide, by decide, by decide⟩

/-- C7 counterexample: the claim states that a missing bearer token yields
status 401.  On the code the any-authenticated middleware answers 403 for
a missing Authorization header. -/
theorem c7_missing_token_not_401 :
    handle_basic_auth none (.ok true) 200 = 403 ∧ (403 : Nat) ≠ 401 := by
  decide

/-- C7 as amended: the middlewares answer 403 for a missing token, 403 for
an invalid or expired session, 403 for a valid session with insufficient
role, and 500 for a database error; no auth failure is answered 401. -/
theorem c7_auth_failure_statuses_amended :
    (∀ v i, handle_basic_auth none v i = 403) ∧
    (∀ tok i, handle_basic_auth (some tok) (.ok false) i = 403) ∧
    (∀ tok e i, handle_basic_auth (some tok) (.error e) i = 500) ∧
    (∀ tok c a i,
      handle_student_auth (some tok) (some c) (.ok false) (.ok false) a i = 403) ∧
    (∀ tok c e ic a i,
      handle_student_auth (some tok) (some c) (.error e) ic a i = 500) ∧
    (∀ tok c e a i,
      handle_student_auth (some tok) (some c) (.ok false) (.error e) a i = 500) ∧
    (∀ tok s ic i, handle_student_auth (some tok) none s ic (.ok false) i = 403) ∧
    (∀ tok s ic e i, handle_student_auth (some tok) none s ic (.error e) i = 500) ∧
    (∀ c s ic a i, handle_student_auth none c s ic a i = 403) :=
  ⟨fun _ _ => rfl, fun _ _ => rfl, fun _ _ _ => rfl, fun _ _ _ _ => rfl,
   fun _ _ _ _ _ _ => rfl, fun _ _ _ _ _ => rfl, fun _ _ _ _ => rfl,
   fun _ _ _ _ _ => rfl, fun _ _ _ _ _ => rfl⟩

/-- C8 counterexample: the claim states that a session is valid only when
its expiration is strictly greater than the current time, so that at the
instant now equals the expiration the session is invalid.  On the code the
comparison rejects only now strictly greater than the expiration: with one
session row expiring at 100 and now equal to 100, validity is answered
true although no row has expiration strictly above now. -/
theorem c8_valid_at_expiration_instant :
    session_exists_and_valid (fun b => b) [⟨[1], 100, 9⟩] 100 [1] = true ∧
    ¬ ∃ r ∈ ([⟨[1], 100, 9⟩] : List SessionRow),
        r.session_hash = [1] ∧ 100 < r.expiration := by
  decide

/-- C8 as amended: on a session table whose hashes are pairwise distinct
(session_hash is the primary key), validity holds exactly when a row whose
session_hash equals the hash of the decoded token exists with now at or
before its expiration; the session is still valid at the instant now
equals the expiration. -/
theorem c8_session_validity_amended (hash : Bytes → Bytes)
    (table : List SessionRow) (now : Int) (token_bytes : Bytes)
    (huniq : table.Pairwise (fun a b => a.session_hash ≠ b.session_hash)) :
    session_exists_and_valid hash table now token_bytes = true ↔
      ∃ r ∈ table, r.session_hash = hash token_bytes ∧ now ≤ r.expiration := by
  induction table with
  | nil => simp [session_exists_and_valid]
  | cons h t ih =>
    rw [List.pairwise_cons] at huniq
    obtain ⟨hhead, htail⟩ := huniq
    by_cases hm : h.session_hash = hash token_bytes
    · have hb : (h.session_hash == hash token_bytes) = true := by simp [hm]
      simp only [session_exists_and_valid, List.find?_cons, hb]
      constructor
      · intro hv
        by_cases hexp : now > h.expiration
        · simp [hexp] at hv
        · exact ⟨h, by simp, hm, le_of_not_lt hexp⟩
      · rintro ⟨r, hr, hsh, hle⟩
        rcases List.mem_cons.mp hr with rfl | hrt
        · simp [not_lt_of_le hle]
        · exact absurd (hsh.trans hm.symm).symm (hhead r hrt)
    · have hb : (h.session_hash == hash token_bytes) = false := by simp [hm]
      have step : session_exists_and_valid hash (h :: t) now token_bytes
          = session_exists_and_valid hash t now token_bytes := by
        simp only [session_exists_and_valid, List.find?_cons, hb]
      rw [step, ih htail]
      constructor
      · rintro ⟨r, hr, hrest⟩
        exact ⟨r, List.mem_cons_of_mem _ hr, hrest⟩
      · rintro ⟨r, hr, hsh, hle⟩
        rcases List.mem_cons.mp hr with rfl | hrt
        · exact absurd hsh hm
        · exact ⟨r, hrt, hsh, hle⟩

/-- Witness for the amended C8: a single unexpired session row validates
the matching token. -/
theorem c8_session_validity_amended_witness :
    session_exists_and_valid (fun b => b) [⟨[1], 50, 9⟩] 10 [1] = true :=
  (c8_session_validity_amended (fun b => b) [⟨[1], 50, 9⟩] 10 [1]
    (by simp)).mpr ⟨⟨[1], 50, 9⟩, by simp, rfl, by norm_num⟩

/-- C9: the stored credential hash follows the split-salt law stated by
the spec, with the username split at floor of half its byte length, and
the construction is deterministic in its inputs. -/
theorem c9_credential_hash_law :
    (∀ hash (u p : Bytes), create_hash hash u p = create_hash_spec hash u p) ∧
    (∀ hash (u u2 p p2 : Bytes), u = u2 → p = p2 →
      create_hash hash u p = create_hash hash u2 p2) := by
  constructor
  · intro hash u p
    unfold create_hash create_hash_spec
    simp
  · rintro hash u u2 p p2 rfl rfl
    rfl

/-- Witness for C9 at concrete byte strings. -/
theorem c9_credential_hash_law_witness :
    create_hash (fun b => b) [10, 11, 12] [99]
      = create_hash_spec (fun b => b) [10, 11, 12] [99] ∧
    create_hash (fun b => b) [10, 11, 12] [99]
      = create_hash (fun b => b) [10, 11, 12] [99] :=
  ⟨c9_credential_hash_law.1 (fun b => b) [10, 11, 12] [99],
   c9_credential_hash_law.2 (fun b => b) [10, 11, 12] [10, 11, 12] [99] [99]
     rfl rfl⟩

/-- C10: whenever mark_as_submitted succeeds it returns was_late equal to
submission_time at-or-after the stored deadline of the assignment, stores
that same flag in the inserted user_task_grade row, and the flag is
monotone in the submission time: a late submission stays late at every
later time. -/
theorem c10_was_late_law (s : DBState) (u aid tid time time2 : Int)
    (zip : Bytes) (wl : Bool) (s2 : DBState)
    (h : mark_as_submitted s u aid tid time zip = .ok (wl, s2)) :
    (∀ arow, s.assignments.find? (fun a => a.id == aid) = some arow →
      wl = decide (time ≥ arow.deadline)) ∧
    s2.user_task_grade = s.user_task_grade ++
      [{ user_id := u, task_id := tid, assignment_id := aid,
         json_results := none, submission_zip := some zip, grade := none,
         error := none, was_late := wl }] ∧
    (wl = true → time ≤ time2 →
      ∃ s3, mark_as_submitted s u aid tid time2 zip = .ok (true, s3)) := by
  unfold mark_as_submitted at h
  cases hfind : s.assignments.find? (fun a => a.id == aid) with
  | none => rw [hfind] at h; exact absurd h (by simp)
  | some a =>
    rw [hfind] at h
    simp only [Except.ok.injEq, Prod.mk.injEq] at h
    obtain ⟨hwl, hs⟩ := h
    refine ⟨?_, ?_, ?_⟩
    · intro arow harow
      cases harow
      exact hwl.symm
    · subst hs
      rw [← hwl]
    · intro hwltrue hle
      have hd : time ≥ a.deadline := of_decide_eq_true (hwl.trans hwltrue)
      have hd2 : decide (time2 ≥ a.deadline) = true :=
        decide_eq_true (le_trans hd hle)
      refine ⟨{ s with user_task_grade := s.user_task_grade ++
        [{ user_id := u, task_id := tid, assignment_id := aid,
           json_results := none, submission_zip := some zip, grade := none,
           error := none, was_late := true }] }, ?_⟩
      unfold mark_as_submitted
      rw [hfind]
      simp [hd2]

/-- Assignment 10 with deadline 100, used to instantiate the was_late
law. -/
def c10_state : DBState := { assignments := [⟨10, 100⟩] }

/-- Witness for C10: a submission at time 150 against deadline 100 stores
a row flagged late. -/
theorem c10_was_late_law_witness :
    ({ c10_state with user_task_grade :=
        [{ user_id := 1, task_id := 2, assignment_id := 10,
           json_results := none, submission_zip := some [9], grade := none,
           error := none, was_late := true }] } : DBState).user_task_grade
      = c10_state.user_task_grade ++
        [{ user_id := 1, task_id := 2, assignment_id := 10,
           json_results := none, submission_zip := some [9], grade := none,
           error := none, was_late := true }] :=
  (c10_was_late_law c10_state 1 10 2 150 151 [9] true
    ({ c10_state with user_task_grade :=
        [{ user_id := 1, task_id := 2, assignment_id := 10,
           json_results := none, submission_zip := some [9], grade := none,
           error := none, was_late := true }] }) rfl).2.1
